import Mathlib

/-!
Verification development for the M-Pesa Mozambique payment engine
(`backend/app/payments/`): a shallow embedding of the transaction data
model, `PaymentService.initiate_payment`, `PaymentService.process_callback`,
the `mpesa_callback` router handler and the request validators, together
with theorems settling the specified properties.
-/

/-- `PaymentStatus` enum from `payments/models.py`. -/
inductive PaymentStatus
  | PENDING
  | PROCESSING
  | COMPLETED
  | FAILED
  | CANCELLED
  | EXPIRED
deriving DecidableEq, Repr

/-- Terminal statuses per the glossary: COMPLETED, FAILED, CANCELLED, EXPIRED. -/
def PaymentStatus.isTerminal : PaymentStatus → Bool
  | .COMPLETED => true
  | .FAILED => true
  | .CANCELLED => true
  | .EXPIRED => true
  | _ => false

/-- The `.value` string of each `PaymentStatus` member. -/
def PaymentStatus.value : PaymentStatus → String
  | .PENDING => "pending"
  | .PROCESSING => "processing"
  | .COMPLETED => "completed"
  | .FAILED => "failed"
  | .CANCELLED => "cancelled"
  | .EXPIRED => "expired"

/-- The columns of `PaymentTransaction` (`payments/models.py`) that the
engine's control flow reads or writes.  Timestamps are modelled as flags
(`callback_received`, `completed`) since wall-clock time is not modelled. -/
structure Txn where
  transaction_id : String
  third_party_reference : String
  conversation_id : Option String := none
  provider_transaction_id : Option String := none
  status : PaymentStatus
  amount : Rat
  currency : String := "MZN"
  phone_number : String
  customer_name : Option String := none
  customer_email : Option String := none
  account_reference : String := ""
  description : Option String := none
  entity_type : Option String := none
  entity_id : Option String := none
  idempotency_key : Option String := none
  provider_response_code : Option String := none
  provider_response_description : Option String := none
  callback_received : Bool := false
  net_amount : Option Rat := none
  completed : Bool := false
deriving DecidableEq, Repr

/-- The M-Pesa callback payload (`input_*` fields), as read by
`process_callback` via `callback_data.get(...)`. -/
structure CallbackData where
  input_OriginalConversationID : Option String := none
  input_ThirdPartyReference : Option String := none
  input_TransactionID : Option String := none
  input_ResultCode : Option String := none
  input_ResultDesc : Option String := none
deriving DecidableEq, Repr

/-- A `PaymentWebhookLog` row (`payments/models.py`); `transaction_id` holds
the matched transaction's identifier when one is found. -/
structure WebhookLog where
  request_body : CallbackData
  processing_error : Option String := none
  transaction_id : Option String := none
  is_processed : Bool := false
deriving DecidableEq, Repr

/-- The durable store: the `payment_transactions` table and the
append-only `payment_webhook_logs` table. -/
structure Store where
  txns : List Txn
  webhookLogs : List WebhookLog
deriving DecidableEq, Repr

/-- Python `str(result_code)` where a missing key is `None`. -/
def pyStr : Option String → String
  | some s => s
  | none => "None"

/-- Python `x or fallback` on an optional string (falsy on `None` and `""`). -/
def pyOr (m : Option String) (fb : String) : String :=
  match m with
  | some s => if s = "" then fb else s
  | none => fb

/-- `PaymentService._get_error_message`: the static code→message table. -/
def getErrorMessage (code : String) : String :=
  if code = "INS-0" then "Request processed successfully"
  else if code = "INS-1" then "Internal error"
  else if code = "INS-5" then "Transaction declined: Duplicate transaction"
  else if code = "INS-6" then "Transaction failed"
  else if code = "INS-9" then "Timeout waiting for response"
  else if code = "INS-10" then "Insufficient balance"
  else if code = "INS-13" then "Invalid shortcode"
  else if code = "INS-14" then "Invalid reference"
  else if code = "INS-15" then "Invalid amount"
  else if code = "INS-16" then "Unable to process - try again later"
  else if code = "INS-17" then "Invalid transaction reference"
  else if code = "INS-18" then "Invalid transaction ID"
  else if code = "INS-19" then "Transaction in progress"
  else if code = "INS-20" then "Invalid MSISDN (phone number)"
  else if code = "INS-21" then "Parameter validation failed"
  else if code = "INS-22" then "Invalid operation"
  else if code = "INS-23" then "Invalid API key"
  else if code = "INS-24" then "Invalid API host"
  else if code = "INS-25" then "Request cancelled by user"
  else if code = "INS-26" then "Transaction cancelled"
  else if code = "INS-2001" then "Initiator authentication error"
  else if code = "INS-2006" then "Insufficient balance"
  else if code = "INS-2051" then "Customer profile has problem"
  else if code = "INS-2057" then "Provider rejected request"
  else "Unknown error: " ++ code

/-- The `WHERE conversation_id = :conv` row filter. -/
def pConv (conv : String) (t : Txn) : Bool :=
  decide (t.conversation_id = some conv)

/-- The `WHERE third_party_reference = :ref` row filter. -/
def pRef (ref : String) (t : Txn) : Bool :=
  decide (t.third_party_reference = ref)

/-- The transaction lookup of `process_callback`: by `conversation_id`
first, falling back to `third_party_reference`, each only when the
corresponding callback field is truthy. -/
def lookupTxn (cb : CallbackData) (ts : List Txn) : Option Txn :=
  match (if cb.input_OriginalConversationID.getD ("") ≠ "" then
          ts.find? (pConv (cb.input_OriginalConversationID.getD (""))) else none) with
  | some t => some t
  | none =>
    if cb.input_ThirdPartyReference.getD ("") ≠ "" then
      ts.find? (pRef (cb.input_ThirdPartyReference.getD (""))) else none

/-- In-place row update keyed by `transaction_id` (the ORM mutates the
locked row and commits). -/
def updateTxn (ts : List Txn) (tid : String) (t' : Txn) : List Txn :=
  ts.map (fun t => if t.transaction_id = tid then t' else t)

/-- The transaction mutation of `process_callback` once a PENDING match is
locked: result code "0" completes the payment, anything else fails it
(`service.py` lines 419-450). -/
def applyCallbackResult (t : Txn) (cb : CallbackData) : Txn :=
  let rc := pyStr cb.input_ResultCode
  let t1 : Txn := { t with callback_received := true }
  if rc = "0" then
    { t1 with
      status := PaymentStatus.COMPLETED
      provider_transaction_id := cb.input_TransactionID
      completed := true
      net_amount := some t.amount
      provider_response_code := some rc
      provider_response_description := cb.input_ResultDesc }
  else
    { t1 with
      status := PaymentStatus.FAILED
      provider_response_code := some rc
      provider_response_description := some (pyOr cb.input_ResultDesc (getErrorMessage rc)) }

/-- The webhook-log row as first constructed by `process_callback`. -/
def baseLog (cb : CallbackData) : WebhookLog :=
  { request_body := cb }

/-- `PaymentService.process_callback` (`service.py` lines 333-457): log the
webhook, match a transaction under lock, skip non-PENDING matches
(idempotent duplicate), otherwise apply the result and commit atomically. -/
def processCallback (cb : CallbackData) (s : Store) : Option Txn × Store :=
  match lookupTxn cb s.txns with
  | none =>
    (none,
     { s with webhookLogs :=
        s.webhookLogs ++ [{ baseLog cb with processing_error := some ("Transaction not found") }] })
  | some t =>
    if t.status ≠ PaymentStatus.PENDING then
      (some t,
       { s with webhookLogs :=
          s.webhookLogs ++
            [{ baseLog cb with
                processing_error := some ("Already processed: " ++ t.status.value)
                transaction_id := some t.transaction_id }] })
    else
      let t' := applyCallbackResult t cb
      (some t',
       { txns := updateTxn s.txns t.transaction_id t'
         webhookLogs :=
          s.webhookLogs ++
            [{ baseLog cb with
                transaction_id := some t.transaction_id
                is_processed := true }] })

/-- The acknowledgment body built by the `mpesa_callback` route. -/
structure CallbackAck where
  output_OriginalConversationID : String
  output_ResponseCode : String
  output_ResponseDesc : String
  output_ThirdPartyConversationID : String
deriving DecidableEq, Repr

/-- The success acknowledgment of `mpesa_callback` (`router.py` lines
196-201), echoing the inbound correlation identifiers. -/
def mpesaAckOk (cb : CallbackData) : CallbackAck :=
  { output_OriginalConversationID := cb.input_OriginalConversationID.getD ("")
    output_ResponseCode := "0"
    output_ResponseDesc := "Successfully Accepted Result"
    output_ThirdPartyConversationID := cb.input_ThirdPartyReference.getD ("") }

/-- The `mpesa_callback` route handler (`router.py` lines 129-210): run
`process_callback` and acknowledge success; the embedded
`processCallback` is total, so the exception branch is unreachable. -/
def mpesaCallback (cb : CallbackData) (s : Store) : CallbackAck × Store :=
  (mpesaAckOk cb, (processCallback cb s).2)

/-- The configuration values of `payments/config.py` that the service
reads, with their defaults. -/
structure PaymentConfig where
  MPESA_CURRENCY : String := "MZN"
  MPESA_SERVICE_PROVIDER_CODE : String := ""
  PAYMENT_MIN_AMOUNT : Rat := 1
  PAYMENT_MAX_AMOUNT : Rat := 150000
deriving DecidableEq, Repr

/-- The module-level `payment_config = PaymentConfig()` instance. -/
def payment_config : PaymentConfig := {}

/-- A validated `PaymentInitiateRequest` (`payments/schemas.py`). -/
structure InitRequest where
  phone_number : String
  amount : Rat
  account_reference : String
  description : Option String := none
  entity_type : Option String := none
  entity_id : Option String := none
  customer_name : Option String := none
  customer_email : Option String := none
  idempotency_key : Option String := none
deriving DecidableEq, Repr

/-- The C2B request body posted to the provider (`service.py` lines 232-238). -/
structure C2BPayload where
  input_TransactionReference : String
  input_CustomerMSISDN : String
  input_Amount : String
  input_ThirdPartyReference : String
  input_ServiceProviderCode : String
deriving DecidableEq, Repr

/-- The provider's synchronous HTTP reply, with the `output_*` fields the
service extracts (absent fields default to `""` via `.get(..., "")`). -/
structure SyncResponse where
  status_code : Nat
  output_ResponseCode : Option String := none
  output_ResponseDesc : Option String := none
  output_ConversationID : Option String := none
  output_TransactionID : Option String := none
deriving DecidableEq, Repr

/-- Outcome of the outbound `httpx` POST: a reply, or a transport error
(`httpx.RequestError`). -/
inductive ProviderOutcome
  | response (r : SyncResponse)
  | networkError (msg : String)
deriving DecidableEq, Repr

/-- A `PaymentServiceError` (message and machine-readable code). -/
structure PError where
  message : String
  error_code : String
deriving DecidableEq, Repr

/-- The fields of `PaymentInitiateResponse` that `_build_response` fills
from the transaction row. -/
structure InitResponse where
  success : Bool
  transaction_id : String
  provider_transaction_id : Option String
  conversation_id : Option String
  third_party_reference : String
  status : PaymentStatus
  message : String
  phone_number : String
  amount : Rat
  account_reference : String
  currency : String
  response_code : Option String
  response_description : Option String
deriving DecidableEq, Repr

/-- `PaymentService._get_status_description`. -/
def statusDescription : PaymentStatus → String
  | .PENDING => "Waiting for customer to enter M-Pesa PIN"
  | .PROCESSING => "Payment is being processed"
  | .COMPLETED => "Payment completed successfully"
  | .FAILED => "Payment failed"
  | .CANCELLED => "Payment was cancelled"
  | .EXPIRED => "Payment request expired"

/-- `PaymentService._build_response` (`service.py` lines 531-562). -/
def buildResponse (t : Txn) (msg : Option String) : InitResponse :=
  { success := decide (¬ (t.status = PaymentStatus.FAILED ∨ t.status = PaymentStatus.CANCELLED))
    transaction_id := t.transaction_id
    provider_transaction_id := t.provider_transaction_id
    conversation_id := t.conversation_id
    third_party_reference := t.third_party_reference
    status := t.status
    message := pyOr msg (statusDescription t.status)
    phone_number := t.phone_number
    amount := t.amount
    account_reference := t.account_reference
    currency := t.currency
    response_code := t.provider_response_code
    response_description := t.provider_response_description }

/-- The idempotency lookup of `initiate_payment` (`service.py` lines
183-193): `SELECT ... WHERE idempotency_key = :key FOR UPDATE SKIP LOCKED`,
performed only when the request carries a key. -/
def idemLookup (req : InitRequest) (ts : List Txn) : Option Txn :=
  match req.idempotency_key with
  | none => none
  | some k => ts.find? (fun t => decide (t.idempotency_key = some k))

/-- The fresh PENDING row built by `initiate_payment` (`service.py` lines
196-213). -/
def mkTxn (cfg : PaymentConfig) (req : InitRequest) (txnId ref : String) : Txn :=
  { transaction_id := txnId
    third_party_reference := ref
    status := PaymentStatus.PENDING
    amount := req.amount
    currency := cfg.MPESA_CURRENCY
    phone_number := req.phone_number
    customer_name := req.customer_name
    customer_email := req.customer_email
    account_reference := req.account_reference
    description := req.description
    entity_type := req.entity_type
    entity_id := req.entity_id
    idempotency_key := req.idempotency_key }

/-- Python `int(amount)` for a non-negative decimal: truncation toward zero. -/
def pyInt (a : Rat) : Int :=
  a.num.tdiv (a.den : Int)

/-- The C2B payload built by `initiate_payment` (`service.py` lines 232-238). -/
def mkPayload (cfg : PaymentConfig) (req : InitRequest) (txnId ref : String) : C2BPayload :=
  { input_TransactionReference := txnId.take 20
    input_CustomerMSISDN := req.phone_number
    input_Amount := toString (pyInt req.amount)
    input_ThirdPartyReference := ref
    input_ServiceProviderCode := cfg.MPESA_SERVICE_PROVIDER_CODE }

/-- The acceptance test of the synchronous reply:
`response.status_code in [200, 201] and response_code == "INS-0"`. -/
def acceptedResp (r : SyncResponse) : Bool :=
  decide ((r.status_code = 200 ∨ r.status_code = 201) ∧ r.output_ResponseCode.getD ("") = "INS-0")

/-- The error message chosen on a provider rejection:
`self._get_error_message(response_code) if response_code else response_desc`. -/
def rejectMessage (r : SyncResponse) : String :=
  if r.output_ResponseCode.getD ("") ≠ "" then getErrorMessage (r.output_ResponseCode.getD (""))
  else r.output_ResponseDesc.getD ("")

/-- The read-modify-write performed by `initiate_payment` on the refreshed
row after the provider replied (`service.py` lines 265-296): the accepted
path records the provider identifiers and leaves `status` alone; the
rejected path writes `status = FAILED` unconditionally. -/
def postSubmissionUpdate (t : Txn) (r : SyncResponse) : Txn :=
  if acceptedResp r then
    { t with
      conversation_id := some (r.output_ConversationID.getD (""))
      provider_transaction_id := some (r.output_TransactionID.getD (""))
      provider_response_code := some (r.output_ResponseCode.getD (""))
      provider_response_description := some (r.output_ResponseDesc.getD ("")) }
  else
    { t with
      status := PaymentStatus.FAILED
      provider_response_code := some (r.output_ResponseCode.getD (""))
      provider_response_description := some (rejectMessage r) }

/-- The read-modify-write performed on the refreshed row when the POST
raised a transport error (`service.py` lines 310-318): only the response
description is annotated; `status` is untouched. -/
def networkErrorUpdate (t : Txn) (msg : String) : Txn :=
  { t with provider_response_description := some ("Network error: " ++ msg) }

/-- Observable store events of one `initiate_payment` call, in order:
the creation commit, the outbound POST, and the post-submission commit. -/
inductive Event
  | commitCreate (t : Txn)
  | externalCall (p : C2BPayload)
  | commitUpdate (t : Txn)
deriving DecidableEq, Repr

/-- `PaymentService.initiate_payment` (`service.py` lines 162-327) for one
call running without interference, returning the ordered store events, the
resulting store, and the returned response or raised `PaymentServiceError`.
`txnId` and `ref` stand for the freshly generated
`_generate_transaction_id()` / `_generate_third_party_ref()` values, and
`outcome` for the provider's behaviour on the POST. -/
def initiatePayment (cfg : PaymentConfig) (req : InitRequest) (txnId ref : String)
    (s : Store) (outcome : ProviderOutcome) :
    List Event × Store × Except PError InitResponse :=
  match idemLookup req s.txns with
  | some existing => ([], s, Except.ok (buildResponse existing none))
  | none =>
    let t := mkTxn cfg req txnId ref
    let payload := mkPayload cfg req txnId ref
    match outcome with
    | ProviderOutcome.response r =>
      let t2 := postSubmissionUpdate t r
      let s2 : Store := { s with txns := updateTxn (s.txns ++ [t]) txnId t2 }
      if acceptedResp r then
        ([Event.commitCreate t, Event.externalCall payload, Event.commitUpdate t2], s2,
         Except.ok (buildResponse t2
            (some ("Payment initiated. Check your phone for M-Pesa prompt."))))
      else
        ([Event.commitCreate t, Event.externalCall payload, Event.commitUpdate t2], s2,
         Except.error
           { message := rejectMessage r
             error_code :=
               if r.output_ResponseCode.getD ("") ≠ "" then r.output_ResponseCode.getD ("")
               else "API_ERROR" })
    | ProviderOutcome.networkError msg =>
      let t2 := networkErrorUpdate t msg
      ([Event.commitCreate t, Event.externalCall payload, Event.commitUpdate t2],
       { s with txns := updateTxn (s.txns ++ [t]) txnId t2 },
       Except.error { message := "Network error: " ++ msg, error_code := "NETWORK_ERROR" })

/-- `PaymentService._generate_third_party_ref` (`service.py` lines 84-89):
`str(uuid.uuid4()).replace("-", "")[:12].upper()`, taking the textual
UUID `u` as input. -/
def generate_third_party_ref (u : String) : String :=
  (((u.toList.filter (fun c => c != '-')).take 12).map Char.toUpper).asString

/-- One character of the provider's `^[0-9a-zA-Z]{1,12}$` character class
(an ASCII letter or digit). -/
def isAlnumAscii (c : Char) : Bool :=
  c.isAlphanum

/-- The provider's `ThirdPartyReference` constraint `^[0-9a-zA-Z]{1,12}$`. -/
def matchesMpesaRef (s : String) : Bool :=
  decide (1 ≤ s.length ∧ s.length ≤ 12) && s.toList.all isAlnumAscii

/-- The characters of a canonical lowercase UUID besides the hyphens. -/
def uuidHexDigits : List Char :=
  String.toList ("0123456789abcdef")

/-- The character class stripped by the phone validator's
`re.sub(r'[\s\-\+]', '', v)` (ASCII whitespace, dash, plus). -/
def isStrippedChar (c : Char) : Bool :=
  c == ' ' || c == '\t' || c == '\n' || c == '\r' || c == '\x0b' || c == '\x0c' ||
    c == '-' || c == '+'

/-- `re.sub(r'[\s\-\+]', '', v)`. -/
def stripPhoneChars (v : String) : String :=
  (v.toList.filter (fun c => !(isStrippedChar c))).asString

/-- `^258\d{9}$` on the character list. -/
def re258 (l : List Char) : Bool :=
  match l with
  | c1 :: c2 :: c3 :: rest =>
    c1 == '2' && c2 == '5' && c3 == '8' && (rest.length == 9 && rest.all Char.isDigit)
  | _ => false

/-- `^0\d{9}$` on the character list. -/
def re0 (l : List Char) : Bool :=
  match l with
  | c :: rest => c == '0' && (rest.length == 9 && rest.all Char.isDigit)
  | [] => false

/-- `^\d{9}$` on the character list. -/
def re9 (l : List Char) : Bool :=
  l.length == 9 && l.all Char.isDigit

/-- `PaymentInitiateRequest.validate_phone_number` (`schemas.py` lines
93-112): strip `[\s\-\+]`, then accept `258XXXXXXXXX` as is, prefix a
leading-zero local number or a bare 9-digit number with `258`, and raise
`ValueError` otherwise. -/
def validate_phone_number (v : String) : Except String String :=
  let cleaned := stripPhoneChars v
  if re258 cleaned.toList then Except.ok cleaned
  else if re0 cleaned.toList then Except.ok (("258") ++ (cleaned.toList.drop 1).asString)
  else if re9 cleaned.toList then Except.ok (("258") ++ cleaned)
  else Except.error ("Phone number must be in format 258XXXXXXXXX (Mozambique)")

/-- `PaymentInitiateRequest.validate_amount` (`schemas.py` lines 114-122). -/
def validate_amount (v : Rat) : Except String Rat :=
  if v < 1 then Except.error ("Amount must be at least 1 MZN")
  else if v > 150000 then Except.error ("Amount cannot exceed 150,000 MZN")
  else Except.ok v

/-- Pydantic validation of a raw `PaymentInitiateRequest`: the field
validators run before the service is ever invoked. -/
def validateRequest (req : InitRequest) : Except String InitRequest :=
  match validate_phone_number req.phone_number with
  | Except.error e => Except.error e
  | Except.ok ph =>
    match validate_amount req.amount with
    | Except.error e => Except.error e
    | Except.ok am => Except.ok { req with phone_number := ph, amount := am }

/-- The `/payments/initiate` route: schema validation rejects the request
before `initiate_payment` runs (no store access), otherwise the service is
called. -/
def initiateEndpoint (cfg : PaymentConfig) (req : InitRequest) (txnId ref : String)
    (s : Store) (outcome : ProviderOutcome) :
    List Event × Store × Except PError InitResponse :=
  match validateRequest req with
  | Except.error e => ([], s, Except.error { message := e, error_code := "VALIDATION_ERROR" })
  | Except.ok req' => initiatePayment cfg req' txnId ref s outcome

deriving instance DecidableEq for Except

/-- Per-call progress of one `initiate_payment` call in the two-call
idempotency race: not yet run, past a lookup that found no row, or
finished with a returned transaction id or a raised error code. -/
inductive C5CallState
  | initial
  | sawNone
  | finished (ret : Except String String)
deriving DecidableEq, Repr

/-- The shared table restricted to one idempotency key: the unique index
`payment_transactions.idempotency_key` (`models.py` line 133) admits at
most one committed row, holding the winner's transaction id. -/
structure C5State where
  row : Option String
  c1 : C5CallState
  c2 : C5CallState
deriving DecidableEq, Repr

/-- The atomic database steps of the two racing calls: each call performs
its idempotency lookup (`L`) and then its insert-and-commit (`I`). -/
inductive C5Step
  | L1
  | I1
  | L2
  | I2
deriving DecidableEq, Repr

/-- The `SELECT ... FOR UPDATE SKIP LOCKED` lookup: a committed row is
returned as the prior result; an absent (or still-uncommitted) row is not
seen, so the call proceeds to create. -/
def c5Lookup (row : Option String) (c : C5CallState) : C5CallState :=
  match c with
  | C5CallState.initial =>
    match row with
    | some tid => C5CallState.finished (Except.ok tid)
    | none => C5CallState.sawNone
  | c => c

/-- The `db.add` + `db.commit` of the fresh PENDING row: committing against
an existing row for the key violates the unique constraint, which
`initiate_payment` surfaces as a `DB_ERROR` `PaymentServiceError`
(`service.py` lines 223-229). -/
def c5Insert (tid : String) (row : Option String) (c : C5CallState) :
    Option String × C5CallState :=
  match c with
  | C5CallState.sawNone =>
    match row with
    | some _ => (row, C5CallState.finished (Except.error ("DB_ERROR")))
    | none => (some tid, C5CallState.finished (Except.ok tid))
  | c => (row, c)

/-- One scheduler step of the two-call race; call 1 creates `TXN1`,
call 2 creates `TXN2`. -/
def c5Step : C5State → C5Step → C5State
  | s, C5Step.L1 => { s with c1 := c5Lookup s.row s.c1 }
  | s, C5Step.L2 => { s with c2 := c5Lookup s.row s.c2 }
  | s, C5Step.I1 =>
    let p := c5Insert ("TXN1") s.row s.c1
    { s with row := p.1, c1 := p.2 }
  | s, C5Step.I2 =>
    let p := c5Insert ("TXN2") s.row s.c2
    { s with row := p.1, c2 := p.2 }

/-- Run a schedule from the fresh-key initial state. -/
def c5Run (sched : List C5Step) : C5State :=
  sched.foldl c5Step { row := none, c1 := C5CallState.initial, c2 := C5CallState.initial }

/-- All interleavings of the two calls' steps that respect each call's
program order (lookup before insert). -/
def c5Schedules : List (List C5Step) :=
  [[C5Step.L1, C5Step.I1, C5Step.L2, C5Step.I2],
   [C5Step.L1, C5Step.L2, C5Step.I1, C5Step.I2],
   [C5Step.L1, C5Step.L2, C5Step.I2, C5Step.I1],
   [C5Step.L2, C5Step.L1, C5Step.I1, C5Step.I2],
   [C5Step.L2, C5Step.L1, C5Step.I2, C5Step.I1],
   [C5Step.L2, C5Step.I2, C5Step.L1, C5Step.I1]]

/-- The racing schedule: both idempotency lookups run before either
insert commits. -/
def c5RaceSched : List C5Step :=
  [C5Step.L1, C5Step.L2, C5Step.I1, C5Step.I2]

/-- A concrete validated initiation request used to instantiate theorems. -/
def reqW : InitRequest :=
  { phone_number := "258843330333"
    amount := 2500
    account_reference := "APT-1"
    idempotency_key := some ("KEY1") }

/-- The empty store. -/
def storeEmpty : Store := { txns := [], webhookLogs := [] }

/-- A concrete accepted synchronous reply (`INS-0`). -/
def respAccept : SyncResponse :=
  { status_code := 200
    output_ResponseCode := some ("INS-0")
    output_ResponseDesc := some ("Request processed successfully")
    output_ConversationID := some ("CONV1")
    output_TransactionID := some ("MPT1") }

/-- A concrete rejected synchronous reply (`INS-6`). -/
def respReject : SyncResponse :=
  { status_code := 200
    output_ResponseCode := some ("INS-6")
    output_ResponseDesc := some ("Transaction failed") }

/-- The accepted reply as a provider outcome. -/
def outAccept : ProviderOutcome := ProviderOutcome.response respAccept

/-- A concrete committed PENDING transaction, as created from `reqW`. -/
def txnW : Txn := mkTxn payment_config reqW "TXN0" "REF0"

/-- A store holding just `txnW`. -/
def storeW : Store := { txns := [txnW], webhookLogs := [] }

/-- A concrete success callback matching `txnW` via its
`third_party_reference`. -/
def cbW : CallbackData :=
  { input_ThirdPartyReference := some ("REF0")
    input_TransactionID := some ("MPT1")
    input_ResultCode := some ("0")
    input_ResultDesc := some ("Success") }

/-- A concrete callback matching no transaction. -/
def cbUnmatched : CallbackData :=
  { input_OriginalConversationID := some ("NOPE")
    input_ResultCode := some ("0") }

/-- A concrete canonical UUID4 string. -/
def uuidW : String := "123e4567-e89b-42d3-a456-426614174000"

/-- The acceptance condition claimed for the phone validator: after
stripping spaces, dashes and plus signs, the input matches `^258\d{9}$`,
`^0\d{9}$` or `^\d{9}$`.  Stated from the claim's words, to be compared
with `validate_phone_number`. -/
def specAcceptsPhone (v : String) : Bool :=
  re258 (stripPhoneChars v).toList || re0 (stripPhoneChars v).toList ||
    re9 (stripPhoneChars v).toList

/-- Consistency of a finished two-call race: the key holds exactly one
committed transaction, and each call either returned that transaction's id
or failed with the unique-constraint `DB_ERROR`. -/
def c5Consistent (st : C5State) : Bool :=
  match st.row with
  | none => false
  | some tid =>
    (st.c1 == C5CallState.finished (Except.ok tid) ||
      st.c1 == C5CallState.finished (Except.error ("DB_ERROR"))) &&
    (st.c2 == C5CallState.finished (Except.ok tid) ||
      st.c2 == C5CallState.finished (Except.error ("DB_ERROR")))

/-- A concrete request whose amount exceeds the configured maximum. -/
def reqBig : InitRequest :=
  { phone_number := "258843330333"
    amount := 200000
    account_reference := "APT-9" }

theorem find?_update_stable (p : Txn → Bool) (ts : List Txn) (t t' : Txn)
    (hfind : ts.find? p = some t)
    (huniq : ∀ u ∈ ts, u.transaction_id = t.transaction_id → u = t)
    (hp : p t' = true) :
    (updateTxn ts t.transaction_id t').find? p = some t' := by
  induction ts with
  | nil => simp at hfind
  | cons a as ih =>
    by_cases ha : p a
    · rw [List.find?_cons_of_pos _ ha] at hfind
      injection hfind with h
      subst h
      simp only [updateTxn, List.map_cons, if_pos rfl]
      exact List.find?_cons_of_pos _ hp
    · rw [List.find?_cons_of_neg _ ha] at hfind
      have hat : a ≠ t := by
        intro h
        subst h
        exact ha (List.find?_some hfind)
      have haid : a.transaction_id ≠ t.transaction_id := fun h =>
        hat (huniq a (List.mem_cons_self a as) h)
      have ih' := ih hfind (fun u hu h => huniq u (List.mem_cons_of_mem a hu) h)
      simp only [updateTxn, List.map_cons, if_neg haid] at ih' ⊢
      rw [List.find?_cons_of_neg _ ha]
      exact ih'

theorem find?_none_update (p : Txn → Bool) (ts : List Txn) (tid : String) (t' : Txn)
    (hnone : ts.find? p = none) (hp : p t' = false) :
    (updateTxn ts tid t').find? p = none := by
  rw [List.find?_eq_none] at hnone ⊢
  intro x hx
  simp only [updateTxn] at hx
  obtain ⟨a, ha, rfl⟩ := List.mem_map.mp hx
  by_cases h : a.transaction_id = tid
  · simp only [if_pos h]
    simp [hp]
  · simp only [if_neg h]
    exact hnone a ha

theorem applyCallbackResult_keys (t : Txn) (cb : CallbackData) :
    (applyCallbackResult t cb).conversation_id = t.conversation_id ∧
    (applyCallbackResult t cb).third_party_reference = t.third_party_reference ∧
    (applyCallbackResult t cb).transaction_id = t.transaction_id := by
  unfold applyCallbackResult
  dsimp only
  split <;> exact ⟨rfl, rfl, rfl⟩

theorem applyCallbackResult_status (t : Txn) (cb : CallbackData) :
    (applyCallbackResult t cb).status = PaymentStatus.COMPLETED ∨
    (applyCallbackResult t cb).status = PaymentStatus.FAILED := by
  unfold applyCallbackResult
  dsimp only
  split
  · exact Or.inl rfl
  · exact Or.inr rfl

theorem pConv_applyCallbackResult (conv : String) (t : Txn) (cb : CallbackData) :
    pConv conv (applyCallbackResult t cb) = pConv conv t := by
  unfold pConv
  rw [(applyCallbackResult_keys t cb).1]

theorem pRef_applyCallbackResult (ref : String) (t : Txn) (cb : CallbackData) :
    pRef ref (applyCallbackResult t cb) = pRef ref t := by
  unfold pRef
  rw [(applyCallbackResult_keys t cb).2.1]

theorem lookupTxn_update (cb : CallbackData) (ts : List Txn) (t : Txn)
    (hfind : lookupTxn cb ts = some t)
    (huniq : ∀ u ∈ ts, u.transaction_id = t.transaction_id → u = t) :
    lookupTxn cb (updateTxn ts t.transaction_id (applyCallbackResult t cb)) =
      some (applyCallbackResult t cb) := by
  unfold lookupTxn at hfind ⊢
  by_cases hc : cb.input_OriginalConversationID.getD ("") ≠ ""
  · rw [if_pos hc] at hfind ⊢
    rcases hfc : ts.find? (pConv (cb.input_OriginalConversationID.getD (""))) with _ | u
    · rw [hfc] at hfind
      dsimp only at hfind
      have hmem : t ∈ ts := by
        by_cases hr : cb.input_ThirdPartyReference.getD ("") ≠ ""
        · rw [if_pos hr] at hfind
          exact List.mem_of_find?_eq_some hfind
        · rw [if_neg hr] at hfind
          exact absurd hfind (by simp)
      have hpt : pConv (cb.input_OriginalConversationID.getD ("")) t = false := by
        have := (List.find?_eq_none.mp hfc) t hmem
        simpa using this
      have hnone := find?_none_update (pConv (cb.input_OriginalConversationID.getD ("")))
        ts t.transaction_id (applyCallbackResult t cb) hfc
        (by rw [pConv_applyCallbackResult]; exact hpt)
      rw [hnone]
      dsimp only
      by_cases hr : cb.input_ThirdPartyReference.getD ("") ≠ ""
      · rw [if_pos hr] at hfind ⊢
        have hpt' : pRef (cb.input_ThirdPartyReference.getD ("")) t = true :=
          List.find?_some hfind
        exact find?_update_stable _ ts t _ hfind huniq
          (by rw [pRef_applyCallbackResult]; exact hpt')
      · rw [if_neg hr] at hfind
        exact absurd hfind (by simp)
    · rw [hfc] at hfind
      dsimp only at hfind
      injection hfind with h
      subst h
      have hpt : pConv (cb.input_OriginalConversationID.getD ("")) u = true :=
        List.find?_some hfc
      have hstable := find?_update_stable _ ts u (applyCallbackResult u cb) hfc huniq
        (by rw [pConv_applyCallbackResult]; exact hpt)
      rw [hstable]
  · rw [if_neg hc] at hfind ⊢
    dsimp only at hfind ⊢
    by_cases hr : cb.input_ThirdPartyReference.getD ("") ≠ ""
    · rw [if_pos hr] at hfind ⊢
      have hpt' : pRef (cb.input_ThirdPartyReference.getD ("")) t = true :=
        List.find?_some hfind
      exact find?_update_stable _ ts t _ hfind huniq
        (by rw [pRef_applyCallbackResult]; exact hpt')
    · rw [if_neg hr] at hfind
      exact absurd hfind (by simp)

theorem updateTxn_append (ts : List Txn) (t t' : Txn)
    (hid : ∀ u ∈ ts, u.transaction_id ≠ t.transaction_id) :
    updateTxn (ts ++ [t]) t.transaction_id t' = ts ++ [t'] := by
  unfold updateTxn
  rw [List.map_append]
  congr 1
  · conv_rhs => rw [← List.map_id ts]
    apply List.map_congr_left
    intro u hu
    simp [hid u hu]
  · simp

theorem hexUpper_alnum : ∀ c ∈ uuidHexDigits, isAlnumAscii c.toUpper = true := by decide

/-- C1 (amended): for a transaction in a terminal status, `process_callback`
performs no write at all (non-PENDING matches are skipped), and the
accepted-path and network-error-path updates inside `initiate_payment`
never change the status; however the rejected-path update writes FAILED
unconditionally, without checking the current status, so terminal statuses
are protected from every engine write except that one; when the
transaction is still PENDING at the post-submission update, transitions
are one-directional from PENDING. -/
theorem C1_terminal_status_writes :
    (∀ cb s t, lookupTxn cb s.txns = some t → t.status ≠ PaymentStatus.PENDING →
      (processCallback cb s).1 = some t ∧ (processCallback cb s).2.txns = s.txns) ∧
    (∀ t r, acceptedResp r = true → (postSubmissionUpdate t r).status = t.status) ∧
    (∀ t msg, (networkErrorUpdate t msg).status = t.status) ∧
    (∀ t r, acceptedResp r = false → (postSubmissionUpdate t r).status = PaymentStatus.FAILED) ∧
    (∀ t r, t.status = PaymentStatus.PENDING →
      ((postSubmissionUpdate t r).status = PaymentStatus.PENDING ∨
       (postSubmissionUpdate t r).status = PaymentStatus.FAILED)) := by
  refine ⟨?_, ?_, ?_, ?_, ?_⟩
  · intro cb s t hfind hnp
    simp only [processCallback, hfind]
    rw [if_pos hnp]
    exact ⟨rfl, rfl⟩
  · intro t r hacc
    simp [postSubmissionUpdate, hacc]
  · intro t msg
    rfl
  · intro t r hacc
    simp [postSubmissionUpdate, hacc]
  · intro t r ht
    by_cases hacc : acceptedResp r = true
    · exact Or.inl (by simp [postSubmissionUpdate, hacc, ht])
    · exact Or.inr (by simp [postSubmissionUpdate, hacc])

/-- C1 counterexample: starting from the committed PENDING transaction
`txnW`, a success callback matched on `third_party_reference` completes it
(a terminal status); the rejected-path post-submission update inside
`initiate_payment` then writes FAILED over that terminal status, so the
engine does write a different status to a terminal transaction. -/
theorem C1_counterexample :
    (processCallback cbW storeW).2.txns = [applyCallbackResult txnW cbW] ∧
    PaymentStatus.isTerminal (applyCallbackResult txnW cbW).status = true ∧
    (postSubmissionUpdate (applyCallbackResult txnW cbW) respReject).status =
      PaymentStatus.FAILED ∧
    (postSubmissionUpdate (applyCallbackResult txnW cbW) respReject).status ≠
      (applyCallbackResult txnW cbW).status := by
  exact ⟨by decide, by decide, by decide, by decide⟩

/-- C1 witness: the amended theorem applied at the concrete completed
transaction and skip callback. -/
theorem C1_terminal_status_writes_witness :
    (processCallback cbW
        { txns := [applyCallbackResult txnW cbW], webhookLogs := [] }).2.txns =
      [applyCallbackResult txnW cbW] ∧
    (postSubmissionUpdate (applyCallbackResult txnW cbW) respAccept).status =
      (applyCallbackResult txnW cbW).status :=
  ⟨(C1_terminal_status_writes.1 cbW
      { txns := [applyCallbackResult txnW cbW], webhookLogs := [] }
      (applyCallbackResult txnW cbW) (by decide) (by decide)).2,
   C1_terminal_status_writes.2.1 (applyCallbackResult txnW cbW) respAccept (by decide)⟩

/-- C4: when an `initiate_payment` call supplies an idempotency key for
which a transaction already exists (and no concurrent holder locks it, so
the `FOR UPDATE SKIP LOCKED` lookup returns it), no new transaction is
created, the store is unchanged, and the call returns the existing row's
projection. -/
theorem C4_idempotent_replay_returns_existing (cfg : PaymentConfig) (req : InitRequest)
    (txnId ref : String) (s : Store) (outcome : ProviderOutcome) (t : Txn)
    (hfound : idemLookup req s.txns = some t) :
    initiatePayment cfg req txnId ref s outcome = ([], s, Except.ok (buildResponse t none)) := by
  simp only [initiatePayment, hfound]

/-- C4 witness: replaying `reqW` against the store already holding `txnW`
under the key returns `txnW`'s projection and leaves the store unchanged. -/
theorem C4_idempotent_replay_witness :
    initiatePayment payment_config reqW ("TXN9") ("REF9") storeW outAccept =
      ([], storeW, Except.ok (buildResponse txnW none)) :=
  C4_idempotent_replay_returns_existing payment_config reqW ("TXN9") ("REF9")
    storeW outAccept txnW rfl

/-- C6: when the outbound POST fails with a transport error, the committed
transaction stays PENDING (only its response description is annotated) and
the caller receives a `NETWORK_ERROR` `PaymentServiceError`. -/
theorem C6_network_error_stays_pending (cfg : PaymentConfig) (req : InitRequest)
    (txnId ref : String) (s : Store) (msg : String)
    (hfresh : idemLookup req s.txns = none)
    (hid : ∀ u ∈ s.txns, u.transaction_id ≠ txnId) :
    (initiatePayment cfg req txnId ref s (ProviderOutcome.networkError msg)).2.2 =
      Except.error { message := "Network error: " ++ msg, error_code := "NETWORK_ERROR" } ∧
    (initiatePayment cfg req txnId ref s (ProviderOutcome.networkError msg)).2.1.txns =
      s.txns ++ [networkErrorUpdate (mkTxn cfg req txnId ref) msg] ∧
    (networkErrorUpdate (mkTxn cfg req txnId ref) msg).status = PaymentStatus.PENDING := by
  refine ⟨?_, ?_, rfl⟩
  · simp only [initiatePayment, hfresh]
  · simp only [initiatePayment, hfresh]
    exact updateTxn_append s.txns (mkTxn cfg req txnId ref)
      (networkErrorUpdate (mkTxn cfg req txnId ref) msg) hid

/-- C6 witness: the network-error theorem at the concrete request against
the empty store. -/
theorem C6_network_error_witness :
    (initiatePayment payment_config reqW ("TXN1") ("REF1") storeEmpty
        (ProviderOutcome.networkError ("timeout"))).2.2 =
      Except.error { message := "Network error: " ++ "timeout", error_code := "NETWORK_ERROR" } ∧
    (initiatePayment payment_config reqW ("TXN1") ("REF1") storeEmpty
        (ProviderOutcome.networkError ("timeout"))).2.1.txns =
      storeEmpty.txns ++
        [networkErrorUpdate (mkTxn payment_config reqW ("TXN1") ("REF1")) ("timeout")] ∧
    (networkErrorUpdate (mkTxn payment_config reqW ("TXN1") ("REF1")) ("timeout")).status =
      PaymentStatus.PENDING :=
  C6_network_error_stays_pending payment_config reqW ("TXN1") ("REF1") storeEmpty
    ("timeout") rfl (by decide)

/-- C7: a callback whose correlation identifiers match no transaction is
acknowledged with the success response, leaves every transaction
untouched, and appends exactly one webhook-log entry marked with the
unmatched `Transaction not found` error. -/
theorem C7_unmatched_callback_acknowledged (cb : CallbackData) (s : Store)
    (h : lookupTxn cb s.txns = none) :
    (mpesaCallback cb s).1.output_ResponseCode = "0" ∧
    (processCallback cb s).1 = none ∧
    (mpesaCallback cb s).2.txns = s.txns ∧
    (mpesaCallback cb s).2.webhookLogs =
      s.webhookLogs ++
        [{ baseLog cb with processing_error := some ("Transaction not found") }] := by
  simp only [mpesaCallback, processCallback, h]
  simp [mpesaAckOk]

/-- C7 witness: the unmatched-callback theorem at the concrete unknown
correlation id against the store holding `txnW`. -/
theorem C7_unmatched_callback_witness :
    (mpesaCallback cbUnmatched storeW).1.output_ResponseCode = "0" ∧
    (processCallback cbUnmatched storeW).1 = none ∧
    (mpesaCallback cbUnmatched storeW).2.txns = storeW.txns ∧
    (mpesaCallback cbUnmatched storeW).2.webhookLogs =
      storeW.webhookLogs ++
        [{ baseLog cbUnmatched with processing_error := some ("Transaction not found") }] :=
  C7_unmatched_callback_acknowledged cbUnmatched storeW (by decide)

/-- C2: an `initiate_payment` call whose idempotency lookup finds no
existing row (fresh or absent key) emits exactly one creation commit,
whose transaction is the fresh PENDING row, strictly before the external
call and the post-submission commit, and adds exactly one row to the
store — whatever the provider outcome. -/
theorem C2_pending_commit_before_provider_call (cfg : PaymentConfig) (req : InitRequest)
    (txnId ref : String) (s : Store) (outcome : ProviderOutcome)
    (hfresh : idemLookup req s.txns = none) :
    ∃ t payload t2,
      (initiatePayment cfg req txnId ref s outcome).1 =
        [Event.commitCreate t, Event.externalCall payload, Event.commitUpdate t2] ∧
      t = mkTxn cfg req txnId ref ∧
      t.status = PaymentStatus.PENDING ∧
      (initiatePayment cfg req txnId ref s outcome).2.1.txns.length = s.txns.length + 1 := by
  cases outcome with
  | response r =>
    by_cases hacc : acceptedResp r = true
    · exact ⟨mkTxn cfg req txnId ref, mkPayload cfg req txnId ref,
        postSubmissionUpdate (mkTxn cfg req txnId ref) r,
        by simp only [initiatePayment, hfresh, hacc, if_true], rfl, rfl,
        by simp [initiatePayment, hfresh, hacc, updateTxn]⟩
    · exact ⟨mkTxn cfg req txnId ref, mkPayload cfg req txnId ref,
        postSubmissionUpdate (mkTxn cfg req txnId ref) r,
        by simp only [initiatePayment, hfresh, hacc, if_false, Bool.false_eq_true], rfl, rfl,
        by simp [initiatePayment, hfresh, hacc, updateTxn]⟩
  | networkError msg =>
    exact ⟨mkTxn cfg req txnId ref, mkPayload cfg req txnId ref,
      networkErrorUpdate (mkTxn cfg req txnId ref) msg,
      by simp only [initiatePayment, hfresh], rfl, rfl,
      by simp [initiatePayment, hfresh, updateTxn]⟩

/-- C2 witness: the commit-before-call theorem at the concrete fresh
request against the empty store with an accepted provider reply. -/
theorem C2_pending_commit_witness :
    ∃ t payload t2,
      (initiatePayment payment_config reqW ("TXN1") ("REF1") storeEmpty outAccept).1 =
        [Event.commitCreate t, Event.externalCall payload, Event.commitUpdate t2] ∧
      t = mkTxn payment_config reqW ("TXN1") ("REF1") ∧
      t.status = PaymentStatus.PENDING ∧
      (initiatePayment payment_config reqW ("TXN1") ("REF1") storeEmpty outAccept).2.1.txns.length =
        storeEmpty.txns.length + 1 :=
  C2_pending_commit_before_provider_call payment_config reqW ("TXN1") ("REF1")
    storeEmpty outAccept rfl

/-- C5 (amended): under every interleaving of two concurrent
`initiate_payment` calls sharing one fresh idempotency key, exactly one
transaction exists for the key afterwards and each call returns either
that transaction's id or the unique-constraint `DB_ERROR`; both calls
return the same transaction id in the sequential interleaving where the
second lookup runs after the first insert committed, but not in racing
interleavings. -/
theorem C5_one_transaction_per_key (sched : List C5Step) (hs : sched ∈ c5Schedules) :
    c5Consistent (c5Run sched) = true ∧
    (c5Run [C5Step.L1, C5Step.I1, C5Step.L2, C5Step.I2]).c1 =
      C5CallState.finished (Except.ok ("TXN1")) ∧
    (c5Run [C5Step.L1, C5Step.I1, C5Step.L2, C5Step.I2]).c2 =
      C5CallState.finished (Except.ok ("TXN1")) := by
  simp only [c5Schedules, List.mem_cons, List.not_mem_nil, or_false] at hs
  rcases hs with rfl | rfl | rfl | rfl | rfl | rfl <;> exact ⟨by decide, by decide, by decide⟩

/-- C5 counterexample: in the racing interleaving where both idempotency
lookups precede both inserts, call 1 returns `TXN1` while call 2 raises
`DB_ERROR` — the two calls do not both return the same transaction id,
though exactly one transaction exists for the key. -/
theorem C5_counterexample :
    (c5Run c5RaceSched).row = some ("TXN1") ∧
    (c5Run c5RaceSched).c1 = C5CallState.finished (Except.ok ("TXN1")) ∧
    (c5Run c5RaceSched).c2 = C5CallState.finished (Except.error ("DB_ERROR")) := by
  exact ⟨by decide, by decide, by decide⟩

/-- C5 witness: the amended theorem applied at the racing schedule. -/
theorem C5_one_transaction_per_key_witness :
    c5Consistent (c5Run c5RaceSched) = true ∧
    (c5Run [C5Step.L1, C5Step.I1, C5Step.L2, C5Step.I2]).c1 =
      C5CallState.finished (Except.ok ("TXN1")) ∧
    (c5Run [C5Step.L1, C5Step.I1, C5Step.L2, C5Step.I2]).c2 =
      C5CallState.finished (Except.ok ("TXN1")) :=
  C5_one_transaction_per_key c5RaceSched (by decide)

theorem processCallback_skip (cb : CallbackData) (s : Store) (t : Txn)
    (hfind : lookupTxn cb s.txns = some t)
    (hnp : t.status ≠ PaymentStatus.PENDING) :
    processCallback cb s =
      (some t,
       { s with webhookLogs := s.webhookLogs ++
          [{ baseLog cb with
              processing_error := some ("Already processed: " ++ t.status.value)
              transaction_id := some t.transaction_id }] }) := by
  simp only [processCallback, hfind]
  rw [if_pos hnp]

theorem processCallback_apply (cb : CallbackData) (s : Store) (t : Txn)
    (hfind : lookupTxn cb s.txns = some t)
    (hpending : t.status = PaymentStatus.PENDING) :
    processCallback cb s =
      (some (applyCallbackResult t cb),
       { txns := updateTxn s.txns t.transaction_id (applyCallbackResult t cb)
         webhookLogs := s.webhookLogs ++
          [{ baseLog cb with
              transaction_id := some t.transaction_id
              is_processed := true }] }) := by
  simp only [processCallback, hfind]
  rw [if_neg (by simp [hpending])]

/-- C3: delivering the same matching callback payload twice while the
matched transaction is PENDING causes exactly one status transition (the
first delivery moves it to a terminal status), the second delivery leaves
every transaction unchanged and appends only a webhook-log entry, and
both deliveries receive the identical success acknowledgment. -/
theorem C3_duplicate_callback_idempotent (cb : CallbackData) (s : Store) (t : Txn)
    (hfind : lookupTxn cb s.txns = some t)
    (hpending : t.status = PaymentStatus.PENDING)
    (huniq : ∀ u ∈ s.txns, u.transaction_id = t.transaction_id → u = t) :
    (mpesaCallback cb s).2.txns =
      updateTxn s.txns t.transaction_id (applyCallbackResult t cb) ∧
    PaymentStatus.isTerminal (applyCallbackResult t cb).status = true ∧
    (mpesaCallback cb ((mpesaCallback cb s).2)).2.txns = (mpesaCallback cb s).2.txns ∧
    (mpesaCallback cb ((mpesaCallback cb s).2)).2.webhookLogs =
      (mpesaCallback cb s).2.webhookLogs ++
        [{ baseLog cb with
            processing_error :=
              some ("Already processed: " ++ (applyCallbackResult t cb).status.value)
            transaction_id := some (applyCallbackResult t cb).transaction_id }] ∧
    (mpesaCallback cb s).1 = mpesaAckOk cb ∧
    (mpesaCallback cb ((mpesaCallback cb s).2)).1 = mpesaAckOk cb := by
  have hterm : PaymentStatus.isTerminal (applyCallbackResult t cb).status = true := by
    rcases applyCallbackResult_status t cb with h | h <;> rw [h] <;> rfl
  have hnp : (applyCallbackResult t cb).status ≠ PaymentStatus.PENDING := by
    rcases applyCallbackResult_status t cb with h | h <;> rw [h] <;> decide
  have h1 := processCallback_apply cb s t hfind hpending
  have hl2 : lookupTxn cb (updateTxn s.txns t.transaction_id (applyCallbackResult t cb)) =
      some (applyCallbackResult t cb) := lookupTxn_update cb s.txns t hfind huniq
  have h2 := processCallback_skip cb
      { txns := updateTxn s.txns t.transaction_id (applyCallbackResult t cb)
        webhookLogs := s.webhookLogs ++
          [{ baseLog cb with
              transaction_id := some t.transaction_id
              is_processed := true }] }
      (applyCallbackResult t cb) hl2 hnp
  refine ⟨?_, hterm, ?_, ?_, rfl, rfl⟩
  · simp only [mpesaCallback]
    rw [h1]
  · simp only [mpesaCallback]
    rw [h1]
    dsimp only
    rw [h2]
  · simp only [mpesaCallback]
    rw [h1]
    dsimp only
    rw [h2]

/-- C3 witness: the duplicate-delivery theorem at the concrete success
callback `cbW` against the store holding the matching PENDING `txnW`. -/
theorem C3_duplicate_callback_witness :
    (mpesaCallback cbW ((mpesaCallback cbW storeW).2)).2.txns =
      (mpesaCallback cbW storeW).2.txns ∧
    (mpesaCallback cbW storeW).1 = mpesaAckOk cbW ∧
    (mpesaCallback cbW ((mpesaCallback cbW storeW).2)).1 = mpesaAckOk cbW :=
  ⟨(C3_duplicate_callback_idempotent cbW storeW txnW rfl rfl (by decide)).2.2.1,
   (C3_duplicate_callback_idempotent cbW storeW txnW rfl rfl (by decide)).2.2.2.2.1,
   (C3_duplicate_callback_idempotent cbW storeW txnW rfl rfl (by decide)).2.2.2.2.2⟩

/-- C8: an initiation request whose amount is below the configured minimum
or above the configured maximum is rejected by schema validation with a
validation error before the service runs: no events, no store change, no
transaction row. -/
theorem C8_amount_bounds_rejected (cfg : PaymentConfig) (req : InitRequest)
    (txnId ref : String) (s : Store) (outcome : ProviderOutcome)
    (h : req.amount < payment_config.PAYMENT_MIN_AMOUNT ∨
         payment_config.PAYMENT_MAX_AMOUNT < req.amount) :
    ∃ e, initiateEndpoint cfg req txnId ref s outcome = ([], s, Except.error e) ∧
      e.error_code = "VALIDATION_ERROR" := by
  have hamt : ∃ m, validate_amount req.amount = Except.error m := by
    rcases h with h | h
    · have h1 : req.amount < 1 := h
      exact ⟨_, by unfold validate_amount; rw [if_pos h1]⟩
    · have h2 : (150000 : Rat) < req.amount := h
      have h1 : ¬ req.amount < 1 := by
        intro h'
        have : (1 : Rat) ≤ 150000 := by norm_num
        linarith
      exact ⟨_, by unfold validate_amount; rw [if_neg h1, if_pos h2]⟩
  obtain ⟨m, hm⟩ := hamt
  rcases hph : validate_phone_number req.phone_number with e | ph
  · exact ⟨{ message := e, error_code := "VALIDATION_ERROR" },
      by simp only [initiateEndpoint, validateRequest, hph], rfl⟩
  · exact ⟨{ message := m, error_code := "VALIDATION_ERROR" },
      by simp only [initiateEndpoint, validateRequest, hph, hm], rfl⟩

/-- C8 witness: the bounds theorem at the concrete request of 200000 MZN
(above the 150000 maximum) against the empty store. -/
theorem C8_amount_bounds_witness :
    ∃ e, initiateEndpoint payment_config reqBig ("TXN1") ("REF1") storeEmpty outAccept =
        ([], storeEmpty, Except.error e) ∧ e.error_code = "VALIDATION_ERROR" :=
  C8_amount_bounds_rejected payment_config reqBig ("TXN1") ("REF1") storeEmpty outAccept
    (Or.inr (by decide))

theorem generate_third_party_ref_valid (u : String)
    (h32 : (u.toList.filter (fun c => c != '-')).length = 32)
    (hhex : ∀ c ∈ u.toList.filter (fun c => c != '-'), c ∈ uuidHexDigits) :
    matchesMpesaRef (generate_third_party_ref u) = true := by
  unfold matchesMpesaRef generate_third_party_ref
  have hlen : (((u.toList.filter (fun c => c != '-')).take 12).map Char.toUpper).length = 12 := by
    rw [List.length_map, List.length_take, h32]
    decide
  rw [Bool.and_eq_true]
  constructor
  · have hslen :
        (List.asString (((u.toList.filter (fun c => c != '-')).take 12).map Char.toUpper)).length
          = 12 := hlen
    rw [hslen]
    decide
  · rw [List.all_eq_true]
    intro c hc
    have hc' : c ∈ ((u.toList.filter (fun c => c != '-')).take 12).map Char.toUpper := hc
    obtain ⟨a, ha, rfl⟩ := List.mem_map.mp hc'
    exact hexUpper_alnum a (hhex a (List.take_subset _ _ ha))

/-- C9: the generated `ThirdPartyReference` always matches the provider's
`^[0-9a-zA-Z]{1,12}$` constraint, and in every fresh `initiate_payment`
call it is embedded in the transaction committed by the creation commit
and carried by the outbound payload, with that commit strictly before the
external call. -/
theorem C9_correlation_token_constraint_and_order (cfg : PaymentConfig) (req : InitRequest)
    (txnId u : String) (s : Store) (outcome : ProviderOutcome)
    (h32 : (u.toList.filter (fun c => c != '-')).length = 32)
    (hhex : ∀ c ∈ u.toList.filter (fun c => c != '-'), c ∈ uuidHexDigits)
    (hfresh : idemLookup req s.txns = none) :
    matchesMpesaRef (generate_third_party_ref u) = true ∧
    ∃ t payload rest,
      (initiatePayment cfg req txnId (generate_third_party_ref u) s outcome).1 =
        Event.commitCreate t :: Event.externalCall payload :: rest ∧
      t.third_party_reference = generate_third_party_ref u ∧
      payload.input_ThirdPartyReference = generate_third_party_ref u := by
  refine ⟨generate_third_party_ref_valid u h32 hhex, ?_⟩
  cases outcome with
  | response r =>
    by_cases hacc : acceptedResp r = true
    · exact ⟨mkTxn cfg req txnId (generate_third_party_ref u),
        mkPayload cfg req txnId (generate_third_party_ref u),
        [Event.commitUpdate
          (postSubmissionUpdate (mkTxn cfg req txnId (generate_third_party_ref u)) r)],
        by simp only [initiatePayment, hfresh, hacc, if_true], rfl, rfl⟩
    · exact ⟨mkTxn cfg req txnId (generate_third_party_ref u),
        mkPayload cfg req txnId (generate_third_party_ref u),
        [Event.commitUpdate
          (postSubmissionUpdate (mkTxn cfg req txnId (generate_third_party_ref u)) r)],
        by simp only [initiatePayment, hfresh, hacc, if_false, Bool.false_eq_true], rfl, rfl⟩
  | networkError msg =>
    exact ⟨mkTxn cfg req txnId (generate_third_party_ref u),
      mkPayload cfg req txnId (generate_third_party_ref u),
      [Event.commitUpdate
        (networkErrorUpdate (mkTxn cfg req txnId (generate_third_party_ref u)) msg)],
      by simp only [initiatePayment, hfresh], rfl, rfl⟩

/-- C9 witness: the token theorem at the concrete UUID `uuidW` and the
concrete fresh request. -/
theorem C9_correlation_token_witness :
    matchesMpesaRef (generate_third_party_ref uuidW) = true ∧
    ∃ t payload rest,
      (initiatePayment payment_config reqW ("TXN1") (generate_third_party_ref uuidW)
          storeEmpty outAccept).1 =
        Event.commitCreate t :: Event.externalCall payload :: rest ∧
      t.third_party_reference = generate_third_party_ref uuidW ∧
      payload.input_ThirdPartyReference = generate_third_party_ref uuidW :=
  C9_correlation_token_constraint_and_order payment_config reqW ("TXN1") uuidW
    storeEmpty outAccept (by decide) (by decide) rfl

theorem toList_append258 (s : String) :
    (("258") ++ s).toList = '2' :: '5' :: '8' :: s.toList := by
  cases s
  rfl

theorem re258_append258 (l : List Char) (hlen : l.length = 9)
    (hdig : l.all Char.isDigit = true) :
    re258 ('2' :: '5' :: '8' :: l) = true := by
  simp [re258, hlen, hdig]

theorem re0_normalized (l : List Char) (h : re0 l = true) :
    re258 ('2' :: '5' :: '8' :: l.drop 1) = true := by
  cases l with
  | nil => simp [re0] at h
  | cons c rest =>
    simp only [re0, Bool.and_eq_true, beq_iff_eq] at h
    exact re258_append258 rest h.2.1 h.2.2

theorem re9_normalized (l : List Char) (h : re9 l = true) :
    re258 ('2' :: '5' :: '8' :: l) = true := by
  simp only [re9, Bool.and_eq_true, beq_iff_eq] at h
  exact re258_append258 l h.1 h.2

/-- C10: the phone validator accepts exactly the inputs whose stripped
form (spaces, dashes, plus signs removed) matches `^258\d{9}$`, `^0\d{9}$`
or `^\d{9}$`; every accepted input normalizes to a string matching
`^258\d{9}$`; and the operator prefix is not checked at this interface —
the prefix-12 number `258123456789` is accepted verbatim. -/
theorem C10_phone_validator_characterization :
    (∀ v : String,
      ((validate_phone_number v).isOk = specAcceptsPhone v) ∧
      (∀ r, validate_phone_number v = Except.ok r → re258 r.toList = true)) ∧
    validate_phone_number ("258123456789") = Except.ok ("258123456789") := by
  constructor
  · intro v
    constructor
    · unfold validate_phone_number specAcceptsPhone
      simp only [String.toList]
      by_cases h1 : re258 (stripPhoneChars v).data = true
      · rw [if_pos h1, h1]
        rfl
      · rw [Bool.not_eq_true] at h1
        rw [if_neg (by rw [h1]; exact Bool.false_ne_true), h1]
        by_cases h2 : re0 (stripPhoneChars v).data = true
        · rw [if_pos h2, h2]
          rfl
        · rw [Bool.not_eq_true] at h2
          rw [if_neg (by rw [h2]; exact Bool.false_ne_true), h2]
          by_cases h3 : re9 (stripPhoneChars v).data = true
          · rw [if_pos h3, h3]
            rfl
          · rw [Bool.not_eq_true] at h3
            rw [if_neg (by rw [h3]; exact Bool.false_ne_true), h3]
            rfl
    · intro r hr
      unfold validate_phone_number at hr
      simp only [String.toList] at hr
      by_cases h1 : re258 (stripPhoneChars v).data = true
      · rw [if_pos h1] at hr
        injection hr with h
        subst h
        exact h1
      · rw [if_neg h1] at hr
        by_cases h2 : re0 (stripPhoneChars v).data = true
        · rw [if_pos h2] at hr
          injection hr with h
          subst h
          rw [toList_append258]
          show re258 ('2' :: '5' :: '8' :: (stripPhoneChars v).data.drop 1) = true
          exact re0_normalized _ h2
        · rw [if_neg h2] at hr
          by_cases h3 : re9 (stripPhoneChars v).data = true
          · rw [if_pos h3] at hr
            injection hr with h
            subst h
            rw [toList_append258]
            show re258 ('2' :: '5' :: '8' :: (stripPhoneChars v).data) = true
            exact re9_normalized _ h3
          · rw [if_neg h3] at hr
            exact absurd hr (by simp)
  · decide

/-- C10 witness: the characterization applied at a formatted local number,
together with the normalization of its accepted result. -/
theorem C10_phone_validator_witness :
    ((validate_phone_number ("084 333 0333")).isOk = specAcceptsPhone ("084 333 0333")) ∧
    re258 (String.toList ("258843330333")) = true :=
  ⟨(C10_phone_validator_characterization.1 ("084 333 0333")).1,
   (C10_phone_validator_characterization.1 ("084 333 0333")).2 ("258843330333") (by decide)⟩
